import Mathlib

/-!
Verification of the BrainDrive PageContext service-bridge example plugin.

The development shallowly embeds the two stateful pieces of the repository:

* `PluginPageContextService` — the service wrapper class of
  `src/services/pageContextService.ts` (`setServiceBridge`,
  `getCurrentPageContext`, `onPageContextChange`).
* `PageContextListener` — the React component of `PageContextListener.tsx`
  (the file present as `src/unnamed/part_001`): its `initializePageContextListener`
  method and the change callback it registers with the bridge.

Untyped JavaScript values crossing the host boundary are embedded as
`Option Payload` (with `none` standing for null / undefined / other falsy
values) so that the truthiness and `typeof` guards of the source translate
directly. Exceptions are embedded with `Except`; methods whose exceptions are
caught inside the source function are embedded as total functions.
-/

/-- A JavaScript value stored in one field of a context object: either a
string, or some other (non-string) value whose identity is tracked by a tag so
that the strict inequality `!==` of the source stays decidable. -/
inductive JsField where
  | str (s : String)
  | other (tag : Nat)
deriving DecidableEq, Repr

/-- A truthy JavaScript value delivered by the host: either a (truthy)
non-object primitive, or an object carrying the three optional context
properties `pageId`, `pageName`, `pageRoute` (a `none` field is an absent
property, read back as undefined). Null and undefined are embedded as `none`
at type `Option Payload`. -/
inductive Payload where
  | nonObject (tag : Nat)
  | object (pageId pageName pageRoute : Option JsField)
deriving DecidableEq, Repr

/-- Property read `v.pageId` on a truthy value (an absent property and a
non-object receiver both read as undefined, i.e. `none`). -/
def Payload.fieldPageId : Payload → Option JsField
  | .object v _ _ => v
  | .nonObject _ => none

/-- Property read `v.pageName`. -/
def Payload.fieldPageName : Payload → Option JsField
  | .object _ v _ => v
  | .nonObject _ => none

/-- Property read `v.pageRoute`. -/
def Payload.fieldPageRoute : Payload → Option JsField
  | .object _ _ v => v
  | .nonObject _ => none

/-- JavaScript strict inequality `!==` on two property reads (`none` is
undefined; undefined !== undefined is false). -/
def jsNe : Option JsField → Option JsField → Bool
  | none, none => false
  | some (.str a), some (.str b) => if a = b then false else true
  | some (.other a), some (.other b) => if a = b then false else true
  | _, _ => true

/-- Change-type determination of `PageContextListener.tsx`
(`src/unnamed/part_001`, lines 136-148): after the initial-load test, the
source tests `pageId`, then `pageName`, then `pageRoute`, with fallback
`Context Update`. The source strings are kept verbatim (`Page Navigation` is
what the spec calls `PageChange`). -/
def determineChangeType (previousContext : Option Payload) (newContext : Payload) : String :=
  match previousContext with
  | none => "Initial Load"
  | some prev =>
    if jsNe prev.fieldPageId newContext.fieldPageId then "Page Navigation"
    else if jsNe prev.fieldPageName newContext.fieldPageName then "Page Name Change"
    else if jsNe prev.fieldPageRoute newContext.fieldPageRoute then "Route Change"
    else "Context Update"

/-- Change-type determination as printed by the repository developer guide
(`src/unnamed/part_000`, lines 252-261), which presents itself as a quotation
of `PageContextListener.tsx`: there `pageRoute` is tested before `pageName`,
with change names `Page Change` / `Route Change` / `Name Change`. -/
def determineChangeTypeDoc (previousContext : Option Payload) (newContext : Payload) : String :=
  match previousContext with
  | none => "Initial Load"
  | some prev =>
    if jsNe prev.fieldPageId newContext.fieldPageId then "Page Change"
    else if jsNe prev.fieldPageRoute newContext.fieldPageRoute then "Route Change"
    else if jsNe prev.fieldPageName newContext.fieldPageName then "Name Change"
    else "Context Update"

/-- A `PageContextChange` record of `PageContextListener.tsx`. -/
structure PageContextChange where
  timestamp : String
  previousContext : Option Payload
  newContext : Payload
  changeType : String
deriving DecidableEq, Repr

/-- The React state of the `PageContextListener` component. -/
structure PageContextListenerState where
  isServiceConnected : Bool
  isListening : Bool
  error : String
  status : String
  changeHistory : List PageContextChange
  currentContext : Option Payload
deriving DecidableEq, Repr

/-- The change callback that `PageContextListener.tsx` registers with the
bridge (`src/unnamed/part_001`, lines 118-171). A falsy or non-object payload
returns early without touching the state; any object payload is classified
against the stored `currentContext`, stored as the new `currentContext`, and a
change record is prepended to the history of which only the first nine old
entries are kept (`slice(0, 9)`). The locale-time suffix of the status string
is abstracted away. -/
def handlePageContextChange (s : PageContextListenerState) (timestamp : String)
    (newContext : Option Payload) : PageContextListenerState :=
  match newContext with
  | none => s
  | some (.nonObject _) => s
  | some (.object a b c) =>
    let ctx : Payload := .object a b c
    let previousContext := s.currentContext
    let changeType := determineChangeType previousContext ctx
    let changeRecord : PageContextChange :=
      { timestamp := timestamp, previousContext := previousContext
        newContext := ctx, changeType := changeType }
    { s with
      currentContext := some ctx
      changeHistory := changeRecord :: s.changeHistory.take 9
      status := "Page context changed: " ++ changeType }

/-- Outcome of calling the bridge method `getCurrentPageContext` when it is
present: it returns a nullable value or throws. -/
inductive RetrieveOutcome where
  | ok (ctx : Option Payload)
  | throws (msg : String)
deriving DecidableEq, Repr

/-- A host bridge object, abstracted to what the repository observes of it:
whether each of the two required methods is present (`typeof f === 'function'`)
and what `getCurrentPageContext()` does when invoked. -/
structure Bridge where
  hasGetCurrentPageContext : Bool
  hasOnPageContextChange : Bool
  retrieveOutcome : RetrieveOutcome
deriving DecidableEq, Repr

/-- Invocation `bridge.getCurrentPageContext()`: a missing method throws a
TypeError, otherwise the configured outcome happens. -/
def Bridge.callGetCurrentPageContext (b : Bridge) : Except String (Option Payload) :=
  if b.hasGetCurrentPageContext = false then
    .error "getCurrentPageContext is not a function"
  else
    match b.retrieveOutcome with
    | .ok ctx => .ok ctx
    | .throws msg => .error msg

/-- The `services` prop object: the `pageContext` service may be absent. -/
structure Services where
  pageContext : Option Bridge
deriving DecidableEq, Repr

/-- The `PageContextListener` component: its React state together with the
`pageContextUnsubscribe` handle (`none` embedded as the Boolean false). -/
structure ListenerComponent where
  state : PageContextListenerState
  hasSubscription : Bool
deriving DecidableEq, Repr

/-- The `initializePageContextListener` method of `PageContextListener.tsx`
(`src/unnamed/part_001`, lines 76-231). All throws inside the method are
caught by the method itself (the catch at line 206 records the message in the
state), so the embedding is a total function. `ts` is the timestamp used for
an initial-load history record. The net effect of the two consecutive
`setState` calls on the success path (lines 174-201) is the second one. -/
def initListener (c : ListenerComponent) (servicesProp : Option Services)
    (ts : String) : ListenerComponent :=
  let c0 : ListenerComponent := { c with hasSubscription := false }
  match servicesProp with
  | none =>
    { c0 with state := { c0.state with
        status := "Services not provided to component"
        isServiceConnected := false
        isListening := false
        error := "Services not provided to component" } }
  | some services =>
    match services.pageContext with
    | none =>
      { c0 with state := { c0.state with
          status := "Waiting for PageContext Service to become available..."
          isServiceConnected := false
          isListening := false
          error := ""
          changeHistory := [] } }
    | some bridge =>
      if bridge.hasOnPageContextChange = false then
        { c0 with state := { c0.state with
            status := "PageContext Service missing onPageContextChange method"
            isServiceConnected := false
            isListening := false
            error := "PageContext Service missing onPageContextChange method" } }
      else if bridge.hasGetCurrentPageContext = false then
        { c0 with state := { c0.state with
            status := "PageContext Service missing getCurrentPageContext method"
            isServiceConnected := false
            isListening := false
            error := "PageContext Service missing getCurrentPageContext method" } }
      else
        let initialContext : Option Payload :=
          match bridge.retrieveOutcome with
          | .ok ctx => ctx
          | .throws _ => none
        let initialHistory : List PageContextChange :=
          match initialContext with
          | some ic =>
            [{ timestamp := ts, previousContext := none
               newContext := ic, changeType := "Initial Load" }]
          | none => []
        { state :=
            { isServiceConnected := true
              isListening := true
              error := ""
              status := "PageContext Listener active and monitoring changes"
              changeHistory := initialHistory
              currentContext := initialContext }
          hasSubscription := true }

/-- A `PageContextServiceError` of `pageContextService.ts` (lines 100-105):
a message plus a machine code. -/
structure PageContextServiceError where
  message : String
  code : String
deriving DecidableEq, Repr

/-- The error thrown by both operations when `isServiceAvailable` is false. -/
def serviceUnavailableError : PageContextServiceError :=
  { message := "PageContext Service not available. Ensure setServiceBridge() was called."
    code := "SERVICE_UNAVAILABLE" }

/-- Validation `PageContextValidator.validatePageContext` of
`pageContextService.ts` (lines 114-129) on a truthy value: the receiver must
be an object and each of the three fields must have `typeof` string. The
source never checks non-emptiness, so empty strings pass. -/
def validatePageContext (context : Payload) : Bool :=
  match context with
  | .nonObject _ => false
  | .object a b c => isStringField a && isStringField b && isStringField c
where
  /-- typeof-string test for one property read. -/
  isStringField : Option JsField → Bool
    | some (.str _) => true
    | _ => false

/-- The mutable fields of the `PluginPageContextService` class
(`pageContextService.ts`, lines 167-175). `listeners` embeds the `Set` of
external listeners as an insertion-ordered duplicate-free list of listener
identities. `bridgeRegistrations` is an observation counter for the calls the
wrapper has made to the bridge method `onPageContextChange`, i.e. the number
of internal forwarding listeners registered with the bridge; it is not a
field of the class but records its externally visible subscription effect. -/
structure PluginPageContextService where
  pluginId : String
  moduleId : String
  serviceBridge : Option Bridge
  isConnected : Bool
  listeners : List Nat
  currentContext : Option Payload
  operationCount : Nat
  bridgeRegistrations : Nat
deriving DecidableEq, Repr

/-- Factory `createPageContextService` (`pageContextService.ts`, lines
477-482) composed with the constructor (lines 176-182). -/
def createPageContextService (pluginId moduleId : String) : PluginPageContextService :=
  { pluginId := pluginId, moduleId := moduleId
    serviceBridge := none, isConnected := false
    listeners := [], currentContext := none
    operationCount := 0, bridgeRegistrations := 0 }

/-- Method `setServiceBridge` (`pageContextService.ts`, lines 192-212): a
falsy bridge throws INVALID_BRIDGE; otherwise the bridge is stored,
`isConnected` becomes true, and the initial context fetch is attempted with
any exception caught and replaced by a null context. -/
def setServiceBridge (s : PluginPageContextService) (bridge : Option Bridge) :
    Except PageContextServiceError PluginPageContextService :=
  match bridge with
  | none => .error { message := "Service bridge cannot be null", code := "INVALID_BRIDGE" }
  | some b =>
    let s1 := { s with serviceBridge := some b, isConnected := true }
    match b.callGetCurrentPageContext with
    | .ok ctx => .ok { s1 with currentContext := ctx }
    | .error _ => .ok { s1 with currentContext := none }

/-- Method `isServiceAvailable` (`pageContextService.ts`, lines 222-231). -/
def isServiceAvailable (s : PluginPageContextService) : Bool :=
  s.serviceBridge.isSome && s.isConnected

/-- Method `getCurrentPageContext` (`pageContextService.ts`, lines 242-282):
unavailable service throws SERVICE_UNAVAILABLE; a bridge exception is
rethrown as GET_CONTEXT_FAILED; a truthy context failing validation throws
INVALID_CONTEXT; otherwise the cached context is overwritten (possibly with
null), the operation counter incremented, and the context returned. No throw
mutates the state, so errors carry no state. -/
def getCurrentPageContextOp (s : PluginPageContextService) :
    Except PageContextServiceError (PluginPageContextService × Option Payload) :=
  if isServiceAvailable s then
    match s.serviceBridge with
    | none => .error serviceUnavailableError
    | some bridge =>
      match bridge.callGetCurrentPageContext with
      | .error msg =>
        .error { message := "Failed to get page context: " ++ msg, code := "GET_CONTEXT_FAILED" }
      | .ok context =>
        match context with
        | some payload =>
          if validatePageContext payload = false then
            .error { message := "Invalid page context returned from service"
                     code := "INVALID_CONTEXT" }
          else
            .ok ({ s with currentContext := some payload
                          operationCount := s.operationCount + 1 }, some payload)
        | none =>
          .ok ({ s with currentContext := none
                        operationCount := s.operationCount + 1 }, none)
  else .error serviceUnavailableError

/-- Method `onPageContextChange` (`pageContextService.ts`, lines 294-348):
unavailable service throws SERVICE_UNAVAILABLE; otherwise the external
listener is added to the listener set, then one new forwarding listener is
registered with the bridge (a missing bridge method throws, caught and
rethrown as ADD_LISTENER_FAILED after the set was already mutated), and a
fresh unsubscribe handle is returned. The handle is embedded as the index of
the registration it tears down, so distinct registrations yield distinct
handles. Listeners are functions by construction of the embedding, so the
validateListener step (lines 304-306) never fails here. -/
def onPageContextChangeOp (s : PluginPageContextService) (listener : Nat) :
    PluginPageContextService × Except PageContextServiceError Nat :=
  if isServiceAvailable s then
    match s.serviceBridge with
    | none => (s, .error serviceUnavailableError)
    | some bridge =>
      let s1 := { s with listeners :=
        if s.listeners.contains listener then s.listeners else s.listeners ++ [listener] }
      if bridge.hasOnPageContextChange then
        ({ s1 with bridgeRegistrations := s1.bridgeRegistrations + 1 }
         , .ok s1.bridgeRegistrations)
      else
        (s1, .error { message := "Failed to add listener: onPageContextChange is not a function"
                      code := "ADD_LISTENER_FAILED" })
  else (s, .error serviceUnavailableError)

/-- The internal forwarding listener the wrapper registers with the bridge
(`pageContextService.ts`, lines 317-332): for every delivered value it
overwrites the cached context and invokes the external listener, with no
validation of any kind. The Boolean records that the external listener was
invoked. -/
def forwardPageContextChange (s : PluginPageContextService) (context : Option Payload) :
    PluginPageContextService × Bool :=
  ({ s with currentContext := context }, true)

/-- A listener component state as it stands right after a successful
initialization with no initial context: connected, listening, empty history. -/
def listeningState : PageContextListenerState :=
  { isServiceConnected := true
    isListening := true
    error := ""
    status := "PageContext Listener active and monitoring changes"
    changeHistory := []
    currentContext := none }

/-- The malformed notification payload of spec property P7: the three context
fields are present and of type string, but `pageId` is the empty string. -/
def emptyIdPayload : Payload :=
  .object (some (.str "")) (some (.str "Home")) (some (.str "/"))

/-- Valid, pairwise distinct sequential contexts used to exercise the history
cap: context number i. -/
def mkCtx (i : Nat) : Payload :=
  .object (some (.str ("page" ++ toString i)))
    (some (.str ("Page " ++ toString i)))
    (some (.str ("/page" ++ toString i)))

/-- Feeding n valid sequential change payloads (contexts 1 .. n) through the
registered change callback, starting from the fresh listening state. -/
def runSequentialChanges (n : Nat) : PageContextListenerState :=
  (List.range n).foldl
    (fun s i => handlePageContextChange s ("t" ++ toString (i + 1)) (some (mkCtx (i + 1))))
    listeningState

/-- Claim C1, counterexample: the payload with an empty `pageId` delivered to
an actively listening client is not discarded — it overwrites the stored
current context, appends a change record to the history, and the service
wrapper forwards it to the external listener. This refutes the claim that
such a payload leaves state, history and listeners untouched. -/
theorem c1_empty_id_payload_processed_counterexample :
    (handlePageContextChange listeningState "t1" (some emptyIdPayload)).currentContext
        = some emptyIdPayload
      ∧ (handlePageContextChange listeningState "t1" (some emptyIdPayload)).changeHistory
        = [{ timestamp := "t1", previousContext := none
             newContext := emptyIdPayload, changeType := "Initial Load" }]
      ∧ (forwardPageContextChange (createPageContextService "p" "m") (some emptyIdPayload)).2
        = true := by
  decide

/-- Claim C1, amended: the change callback discards exactly the payloads that
are falsy or not objects (state completely unchanged for those); every object
payload — its fields validated nowhere, empty strings included — overwrites
the stored current context and prepends a change record to the history, and
the service wrapper forwards every delivered value to the external listener
unconditionally. -/
theorem c1_only_non_object_payloads_dropped :
    (∀ s ts, handlePageContextChange s ts none = s)
      ∧ (∀ s ts tag, handlePageContextChange s ts (some (.nonObject tag)) = s)
      ∧ (∀ s ts a b c,
          (handlePageContextChange s ts (some (.object a b c))).currentContext
              = some (.object a b c)
            ∧ (handlePageContextChange s ts (some (.object a b c))).changeHistory
              = { timestamp := ts, previousContext := s.currentContext
                  newContext := .object a b c
                  changeType := determineChangeType s.currentContext (.object a b c) }
                :: s.changeHistory.take 9)
      ∧ (∀ s ctx, forwardPageContextChange s ctx = ({ s with currentContext := ctx }, true)) := by
  refine ⟨fun s ts => rfl, fun s ts tag => rfl, fun s ts a b c => ⟨rfl, rfl⟩, fun s ctx => rfl⟩

/-- The previous context of spec property P4/P5: id x, name Home, route /. -/
def ctxHomeRoot : Payload :=
  .object (some (.str "x")) (some (.str "Home")) (some (.str "/"))

/-- A successor context with the same id but both name and route changed. -/
def ctxNameAndRouteChanged : Payload :=
  .object (some (.str "x")) (some (.str "Dashboard")) (some (.str "/about"))

/-- Claim C2: for equal `pageId` with both `pageRoute` and `pageName`
differing, the component code classifies the change as `Page Name Change`,
because it tests `pageName` before `pageRoute` — while the classification
printed in the repository developer guide as a quotation of the very same
component tests `pageRoute` first and classifies the same pair as
`Route Change`, as the claim states. The code therefore contradicts its own
documentation on this input. -/
theorem c2_name_tested_before_route_code_bug :
    determineChangeType (some ctxHomeRoot) ctxNameAndRouteChanged = "Page Name Change"
      ∧ determineChangeTypeDoc (some ctxHomeRoot) ctxNameAndRouteChanged = "Route Change" := by
  decide

/-- A bridge whose two methods are present or absent as given and whose
retrieval behaves as given. -/
def mkBridge (hasGet hasSub : Bool) (out : RetrieveOutcome) : Bridge :=
  { hasGetCurrentPageContext := hasGet
    hasOnPageContextChange := hasSub
    retrieveOutcome := out }

/-- A services prop exposing exactly the given page-context bridge. -/
def servicesWith (b : Bridge) : Services :=
  { pageContext := some b }

/-- Claim C3, counterexample: the attach operation of the service wrapper,
`setServiceBridge`, called with a null bridge does raise: it throws the
INVALID_BRIDGE error instead of returning normally. -/
theorem c3_null_bridge_throws_counterexample :
    setServiceBridge (createPageContextService "p" "m") none
      = .error { message := "Service bridge cannot be null", code := "INVALID_BRIDGE" } := by
  rfl

/-- Claim C3, amended: the component-level attach (the initialization method
of the listener component) given a services prop with an absent page-context
bridge never raises — it is a total function — and leaves the client
disconnected, not listening, with an empty change history, an empty error and
no subscription; the service wrapper method `setServiceBridge`, by contrast,
throws INVALID_BRIDGE when handed a null bridge. -/
theorem c3_component_attach_absent_bridge :
    ∀ (c : ListenerComponent) (ts : String),
      (initListener c (some { pageContext := none }) ts).state.isServiceConnected = false
        ∧ (initListener c (some { pageContext := none }) ts).state.isListening = false
        ∧ (initListener c (some { pageContext := none }) ts).state.changeHistory = []
        ∧ (initListener c (some { pageContext := none }) ts).state.error = ""
        ∧ (initListener c (some { pageContext := none }) ts).hasSubscription = false := by
  intro c ts
  exact ⟨rfl, rfl, rfl, rfl, rfl⟩

/-- A bridge object lacking the subscribe capability `onPageContextChange`
but exposing a working `getCurrentPageContext`. -/
def bridgeNoSubscribe : Bridge :=
  mkBridge true false (.ok none)

/-- The wrapper state after attaching `bridgeNoSubscribe` to a fresh service. -/
def serviceAfterNoSubscribeAttach : PluginPageContextService :=
  { pluginId := "p", moduleId := "m"
    serviceBridge := some bridgeNoSubscribe, isConnected := true
    listeners := [], currentContext := none
    operationCount := 0, bridgeRegistrations := 0 }

/-- Claim C4, counterexample: the service wrapper performs no capability
validation at attach time — `setServiceBridge` with a bridge lacking the
subscribe capability succeeds and leaves the client connected, instead of
failing with an error naming the missing capability and leaving it
disconnected. -/
theorem c4_wrapper_skips_capability_check_counterexample :
    setServiceBridge (createPageContextService "p" "m") (some bridgeNoSubscribe)
        = .ok serviceAfterNoSubscribeAttach
      ∧ serviceAfterNoSubscribeAttach.isConnected = true := by
  exact ⟨rfl, rfl⟩

/-- Claim C4, amended: capability validation happens only in the
component-level attach. There, a bridge lacking `onPageContextChange` (the
subscribe capability) makes attachment fail with an error naming that method
and leaves the component disconnected and not listening, and a bridge lacking
`getCurrentPageContext` (the retrieve capability) likewise fails naming that
method; the service wrapper `setServiceBridge` checks nothing and connects
even to a bridge lacking subscribe. -/
theorem c4_component_capability_checks :
    (∀ (c : ListenerComponent) (ts : String) (hasGet : Bool) (out : RetrieveOutcome),
        (initListener c (some (servicesWith (mkBridge hasGet false out))) ts).state.error
            = "PageContext Service missing onPageContextChange method"
          ∧ (initListener c (some (servicesWith (mkBridge hasGet false out)))
              ts).state.isServiceConnected = false
          ∧ (initListener c (some (servicesWith (mkBridge hasGet false out)))
              ts).state.isListening = false)
      ∧ (∀ (c : ListenerComponent) (ts : String) (out : RetrieveOutcome),
          (initListener c (some (servicesWith (mkBridge false true out))) ts).state.error
              = "PageContext Service missing getCurrentPageContext method"
            ∧ (initListener c (some (servicesWith (mkBridge false true out)))
                ts).state.isServiceConnected = false
            ∧ (initListener c (some (servicesWith (mkBridge false true out)))
                ts).state.isListening = false) := by
  exact ⟨fun c ts hasGet out => ⟨rfl, rfl, rfl⟩, fun c ts out => ⟨rfl, rfl, rfl⟩⟩

/-- Claim C5: a bridge whose context retrieval throws during attach does not
abort attachment. The wrapper `setServiceBridge` catches the error, stores a
null current context, and still transitions to connected; the component
attach likewise catches it, proceeds with a null initial context and an empty
initial history, and ends up connected and listening; and for any supplied
bridge whatsoever `setServiceBridge` returns normally, so a retrieval failure
is never raised to the caller of attach. -/
theorem c5_retrieval_failure_absorbed_on_attach :
    (∀ (s : PluginPageContextService) (msg : String),
        setServiceBridge s (some (mkBridge true true (.throws msg)))
          = .ok { s with
              serviceBridge := some (mkBridge true true (.throws msg))
              isConnected := true
              currentContext := none })
      ∧ (∀ (c : ListenerComponent) (ts msg : String),
          (initListener c (some (servicesWith (mkBridge true true (.throws msg))))
              ts).state.isServiceConnected = true
            ∧ (initListener c (some (servicesWith (mkBridge true true (.throws msg))))
                ts).state.isListening = true
            ∧ (initListener c (some (servicesWith (mkBridge true true (.throws msg))))
                ts).state.currentContext = none
            ∧ (initListener c (some (servicesWith (mkBridge true true (.throws msg))))
                ts).state.changeHistory = [])
      ∧ (∀ (s : PluginPageContextService) (b : Bridge),
          ∃ s2, setServiceBridge s (some b) = .ok s2) := by
  refine ⟨fun s msg => rfl, fun c ts msg => ⟨rfl, rfl, rfl, rfl⟩, fun s b => ?_⟩
  unfold setServiceBridge
  cases hc : b.callGetCurrentPageContext with
  | ok ctx =>
    exact ⟨{ s with serviceBridge := some b, isConnected := true, currentContext := ctx },
      by simp [hc]⟩
  | error e =>
    exact ⟨{ s with serviceBridge := some b, isConnected := true, currentContext := none },
      by simp [hc]⟩

/-- Claim C6: the change history is bounded and newest first. Processing any
single change payload never pushes the history length past ten (the length
after equals at most the maximum of the previous length and ten, since the
prepend keeps only the first nine old entries); and feeding fifteen valid
sequential change payloads through an active subscription starting from an
empty history yields exactly ten entries, the most recent change first, i.e.
the records of changes fifteen down to six, with changes one to five evicted. -/
theorem c6_history_capped_at_ten_newest_first :
    (∀ (s : PageContextListenerState) (ts : String) (ctx : Option Payload),
        (handlePageContextChange s ts ctx).changeHistory.length
          ≤ max s.changeHistory.length 10)
      ∧ (runSequentialChanges 15).changeHistory.length = 10
      ∧ (runSequentialChanges 15).changeHistory.map (fun r => r.newContext)
        = (List.range 10).map (fun i => mkCtx (15 - i)) := by
  refine ⟨?_, by decide, by decide⟩
  intro s ts ctx
  cases ctx with
  | none => exact Nat.le_max_left _ _
  | some p =>
    cases p with
    | nonObject tag => exact Nat.le_max_left _ _
    | object a b c =>
      simp only [handlePageContextChange, List.length_cons, List.length_take]
      omega

/-- Claim C7: whenever a previous context is present and its `pageId` differs
from that of the new context, the component classifies the change as
`Page Navigation` (the change kind the spec calls `PageChange`), regardless
of whether `pageName` or `pageRoute` also differ, because `pageId` is tested
first. -/
theorem c7_page_id_tested_first (a n r a2 n2 r2 : String) (h : a ≠ a2) :
    determineChangeType
        (some (.object (some (.str a)) (some (.str n)) (some (.str r))))
        (.object (some (.str a2)) (some (.str n2)) (some (.str r2)))
      = "Page Navigation" := by
  simp [determineChangeType, jsNe, Payload.fieldPageId, h]

/-- Witness for claim C7 at the concrete contexts of spec property P4. -/
theorem c7_page_id_tested_first_witness :
    "x" ≠ "y"
      ∧ determineChangeType
          (some (.object (some (.str "x")) (some (.str "Home")) (some (.str "/"))))
          (.object (some (.str "y")) (some (.str "Home")) (some (.str "/")))
        = "Page Navigation" :=
  ⟨by decide, c7_page_id_tested_first "x" "Home" "/" "y" "Home" "/" (by decide)⟩

/-- A bridge exposing both required methods with a null current context. -/
def bridgeFull : Bridge :=
  mkBridge true true (.ok none)

/-- A freshly attached, connected wrapper holding `bridgeFull`, with no
external listeners and no forwarding registrations yet. -/
def connectedService : PluginPageContextService :=
  { pluginId := "p", moduleId := "m"
    serviceBridge := some bridgeFull, isConnected := true
    listeners := [], currentContext := none
    operationCount := 0, bridgeRegistrations := 0 }

/-- Claim C8, counterexample: the subscribe operation is not idempotent with
respect to the bridge. Calling `onPageContextChange` twice with the same
external listener on a connected client returns two distinct teardown handles
(0, then 1) and leaves two internal forwarding listeners registered with the
bridge, not one. -/
theorem c8_second_subscribe_registers_again_counterexample :
    (onPageContextChangeOp connectedService 1).2 = .ok 0
      ∧ (onPageContextChangeOp (onPageContextChangeOp connectedService 1).1 1).2 = .ok 1
      ∧ (onPageContextChangeOp
          (onPageContextChangeOp connectedService 1).1 1).1.bridgeRegistrations = 2 := by
  exact ⟨rfl, rfl, rfl⟩

/-- Claim C8, amended: every successful subscribe call registers one further
internal forwarding listener with the bridge and returns a fresh teardown
handle — on a connected client whose bridge has the subscribe method, the
call adds the external listener to the listener set (insertion ordered,
duplicates ignored), increments the count of bridge registrations by one, and
returns the handle of the new registration, so the number of forwarding
listeners equals the number of successful subscribe calls, not one per client
instance. -/
theorem c8_each_subscribe_adds_a_registration :
    ∀ (pid mid : String) (ls : List Nat) (ctx : Option Payload)
      (oc regs : Nat) (hasGet : Bool) (out : RetrieveOutcome) (l : Nat),
      onPageContextChangeOp
          { pluginId := pid, moduleId := mid
            serviceBridge := some (mkBridge hasGet true out), isConnected := true
            listeners := ls, currentContext := ctx
            operationCount := oc, bridgeRegistrations := regs } l
        = ({ pluginId := pid, moduleId := mid
             serviceBridge := some (mkBridge hasGet true out), isConnected := true
             listeners := if ls.contains l then ls else ls ++ [l], currentContext := ctx
             operationCount := oc, bridgeRegistrations := regs + 1 }, .ok regs) := by
  intro pid mid ls ctx oc regs hasGet out l
  rfl

/-- Claim C9: on a client with no bridge attached, both the context-read
operation and the subscribe operation fail with the SERVICE_UNAVAILABLE
error (the error kind the spec calls NotConnected) instead of returning a
value, whatever the rest of the state holds. -/
theorem c9_disconnected_operations_fail :
    ∀ (pid mid : String) (conn : Bool) (ls : List Nat) (ctx : Option Payload)
      (oc regs l : Nat),
      getCurrentPageContextOp
          { pluginId := pid, moduleId := mid
            serviceBridge := none, isConnected := conn
            listeners := ls, currentContext := ctx
            operationCount := oc, bridgeRegistrations := regs }
        = .error serviceUnavailableError
        ∧ onPageContextChangeOp
            { pluginId := pid, moduleId := mid
              serviceBridge := none, isConnected := conn
              listeners := ls, currentContext := ctx
              operationCount := oc, bridgeRegistrations := regs } l
          = ({ pluginId := pid, moduleId := mid
               serviceBridge := none, isConnected := conn
               listeners := ls, currentContext := ctx
               operationCount := oc, bridgeRegistrations := regs }
             , .error serviceUnavailableError) := by
  intro pid mid conn ls ctx oc regs l
  exact ⟨rfl, rfl⟩

/-- Claim C10: on a connected client whose bridge returns null from its
context retrieval, the context-read operation returns null without raising —
the truthiness guard skips validation — and overwrites the cached current
context with null (incrementing only the operation counter); and the change
classification with an absent previous context is `Initial Load` for every
payload, so a subsequent valid change against a null baseline is classified
as an initial load. -/
theorem c10_null_context_read_resets_baseline :
    ∀ (pid mid : String) (hasSub : Bool) (ls : List Nat) (ctx : Option Payload)
      (oc regs : Nat),
      getCurrentPageContextOp
          { pluginId := pid, moduleId := mid
            serviceBridge := some (mkBridge true hasSub (.ok none)), isConnected := true
            listeners := ls, currentContext := ctx
            operationCount := oc, bridgeRegistrations := regs }
        = .ok ({ pluginId := pid, moduleId := mid
                 serviceBridge := some (mkBridge true hasSub (.ok none)), isConnected := true
                 listeners := ls, currentContext := none
                 operationCount := oc + 1, bridgeRegistrations := regs }, none)
        ∧ (∀ p : Payload, determineChangeType none p = "Initial Load") := by
  intro pid mid hasSub ls ctx oc regs
  exact ⟨rfl, fun p => rfl⟩
